import Mathlib

/-!
Verification of the core pipeline of `transcribe_recorder.py`.

The program is a two-channel live-transcription recorder.  Its core state is:

* `transcription_buffer` — a dict of two lists, `'mic'` and `'system'`, of
  entries `{'timestamp', 'text'}`, protected by `transcription_lock`;
* `streams_ready` / `recording_ready` — the per-channel readiness flags and
  the one-shot readiness gate;
* `window_counter` — the window sequence counter, starting at 0;
* the periodic API sender `send_api_requests_periodically`, which each tick
  drains the buffer under the lock, merges the two channels (mic entries
  first, tagged `agent`; system entries second, tagged `customer`),
  stable-sorts by timestamp, keeps the last 10 entries, and, when the result
  is non-empty, increments the counter and posts a payload.

Timestamps in the source are ISO-8601 strings produced at receipt time and
compared by Python's total string order; we model them as naturals carrying
the same total order.  Python's `list.sort` is a stable ascending sort; the
unique stable ascending sort by a total key order is `List.insertionSort`
with the reflexive key comparison, which is what we use.
-/

namespace Recorder

/-- One entry of `transcription_buffer['mic'|'system']`: the dict
`{'timestamp': ..., 'text': ...}` appended at line 95. -/
structure Entry where
  timestamp : Nat
  text : String
deriving DecidableEq, Repr

/-- The two audio channels, the keys of `transcription_buffer`. -/
inductive Channel where
  | mic : Channel
  | system : Channel
deriving DecidableEq, Repr

/-- The speaker tag attached when merging: `'agent'` for mic, `'customer'`
for system (lines 318-331). -/
inductive Speaker where
  | agent : Speaker
  | customer : Speaker
deriving DecidableEq, Repr

/-- One element of the merged `all_transcriptions` list (lines 319-331):
`{'speaker', 'transcript', 'timestamp'}`. -/
structure Turn where
  speaker : Speaker
  transcript : String
  timestamp : Nat
deriving DecidableEq, Repr

/-- The shared transcript buffer `transcription_buffer` (lines 55-58): one
ordered list per channel. -/
structure TranscriptionBuffer where
  mic : List Entry
  system : List Entry
deriving DecidableEq, Repr

/-- The initial (and post-drain) buffer: both lists empty. -/
def TranscriptionBuffer.empty : TranscriptionBuffer := ⟨[], []⟩

/-- `transcription_buffer[channel].append(entry)` (line 95), performed under
`transcription_lock`. -/
def TranscriptionBuffer.append (b : TranscriptionBuffer) (c : Channel) (e : Entry) :
    TranscriptionBuffer :=
  match c with
  | Channel.mic => ⟨b.mic ++ [e], b.system⟩
  | Channel.system => ⟨b.mic, b.system ++ [e]⟩

/-- The drain performed by each dispatch tick under `transcription_lock`
(lines 318-343): read both lists, then set both to `[]`.  Returns the prior
contents in per-channel insertion order, and the cleared buffer. -/
def drain_all (b : TranscriptionBuffer) : (List Entry × List Entry) × TranscriptionBuffer :=
  ((b.mic, b.system), TranscriptionBuffer.empty)

/-- Apply a sequence of appends (each one atomic under the lock) to the
buffer, in interleaving order. -/
def appendMany (b : TranscriptionBuffer) : List (Channel × Entry) → TranscriptionBuffer
  | [] => b
  | (c, e) :: rest => appendMany (b.append c e) rest

/-- The mic-channel fragments of an interleaving, in order. -/
def micOf : List (Channel × Entry) → List Entry
  | [] => []
  | (Channel.mic, e) :: rest => e :: micOf rest
  | (Channel.system, _) :: rest => micOf rest

/-- The system-channel fragments of an interleaving, in order. -/
def sysOf : List (Channel × Entry) → List Entry
  | [] => []
  | (Channel.mic, _) :: rest => sysOf rest
  | (Channel.system, e) :: rest => e :: sysOf rest

/-- The comparison used by `all_transcriptions.sort(key=lambda x: x['timestamp'])`
(line 334): ascending by timestamp. -/
def turnLE (a b : Turn) : Prop := a.timestamp ≤ b.timestamp

instance : DecidableRel turnLE := fun a b => Nat.decLe a.timestamp b.timestamp

instance : IsTotal Turn turnLE := ⟨fun a b => Nat.le_total a.timestamp b.timestamp⟩

instance : IsTrans Turn turnLE := ⟨fun _ _ _ h₁ h₂ => Nat.le_trans h₁ h₂⟩

/-- Python's `list.sort` is a stable ascending sort by the key; its result is
the stable insertion sort by the reflexive key comparison. -/
def sortTurns (l : List Turn) : List Turn := List.insertionSort turnLE l

/-- Tag a buffer entry with its speaker when merging (lines 319-323 and
327-331). -/
def toTurn (s : Speaker) (e : Entry) : Turn := ⟨s, e.text, e.timestamp⟩

/-- `all_transcriptions` as built at lines 315-331: all mic entries (as
`agent`), in insertion order, followed by all system entries (as
`customer`), in insertion order. -/
def all_transcriptions (mic sys : List Entry) : List Turn :=
  mic.map (toTurn Speaker.agent) ++ sys.map (toTurn Speaker.customer)

/-- The merged list after the in-place `sort` at line 334. -/
def sorted_transcriptions (mic sys : List Entry) : List Turn :=
  sortTurns (all_transcriptions mic sys)

/-- `recent_transcriptions` (line 337): `all[-10:]` when more than 10
entries, otherwise the whole sorted list. -/
def recent_transcriptions (mic sys : List Entry) : List Turn :=
  let s := sorted_transcriptions mic sys
  if s.length > 10 then s.drop (s.length - 10) else s

theorem appendMany_mic (ops : List (Channel × Entry)) :
    ∀ b : TranscriptionBuffer, (appendMany b ops).mic = b.mic ++ micOf ops := by
  induction ops with
  | nil => intro b; simp [appendMany, micOf]
  | cons p rest ih =>
    intro b
    obtain ⟨c, e⟩ := p
    cases c with
    | mic => simp [appendMany, micOf, ih, TranscriptionBuffer.append]
    | system => simp [appendMany, micOf, ih, TranscriptionBuffer.append]

theorem appendMany_system (ops : List (Channel × Entry)) :
    ∀ b : TranscriptionBuffer, (appendMany b ops).system = b.system ++ sysOf ops := by
  induction ops with
  | nil => intro b; simp [appendMany, sysOf]
  | cons p rest ih =>
    intro b
    obtain ⟨c, e⟩ := p
    cases c with
    | mic => simp [appendMany, sysOf, ih, TranscriptionBuffer.append]
    | system => simp [appendMany, sysOf, ih, TranscriptionBuffer.append]

/-- C1: since every `append` (lines 94-99) and the whole drain (lines
308-343) run under the single `transcription_lock`, every concurrent
execution linearizes to a sequence of atomic appends and one atomic drain.
For every such interleaving — the appends `pre` completed before the drain
and the appends `post` serialized after it — the drain returns exactly the
fragments of `pre`, once each, in per-channel insertion order, leaves both
channel lists empty, and the `post` appends are absent from this drain and
returned in full by the next drain. -/
theorem C1_drain_linearizable (pre post : List (Channel × Entry)) :
    (drain_all (appendMany TranscriptionBuffer.empty pre)).1.1 = micOf pre
    ∧ (drain_all (appendMany TranscriptionBuffer.empty pre)).1.2 = sysOf pre
    ∧ (drain_all (appendMany TranscriptionBuffer.empty pre)).2 = TranscriptionBuffer.empty
    ∧ (drain_all (appendMany
        (drain_all (appendMany TranscriptionBuffer.empty pre)).2 post)).1.1 = micOf post
    ∧ (drain_all (appendMany
        (drain_all (appendMany TranscriptionBuffer.empty pre)).2 post)).1.2 = sysOf post := by
  refine ⟨?_, ?_, rfl, ?_, ?_⟩ <;>
    simp [drain_all, appendMany_mic, appendMany_system, TranscriptionBuffer.empty]

theorem recent_eq_drop (mic sys : List Entry) :
    recent_transcriptions mic sys
      = (sorted_transcriptions mic sys).drop ((sorted_transcriptions mic sys).length - 10) := by
  unfold recent_transcriptions
  by_cases h : (sorted_transcriptions mic sys).length > 10
  · simp [h]
  · have h0 : (sorted_transcriptions mic sys).length - 10 = 0 := by omega
    simp [h, h0]

theorem length_sorted_transcriptions (mic sys : List Entry) :
    (sorted_transcriptions mic sys).length = (all_transcriptions mic sys).length := by
  unfold sorted_transcriptions sortTurns
  exact List.length_insertionSort turnLE (all_transcriptions mic sys)

theorem sorted_transcriptions_sorted (mic sys : List Entry) :
    List.Sorted turnLE (sorted_transcriptions mic sys) :=
  List.sorted_insertionSort turnLE (all_transcriptions mic sys)

/-- A 13-fragment drain example: seven mic fragments and six system
fragments. -/
def exMic13 : List Entry :=
  [⟨1, "m1"⟩, ⟨2, "m2"⟩, ⟨3, "m3"⟩, ⟨4, "m4"⟩, ⟨5, "m5"⟩, ⟨6, "m6"⟩, ⟨7, "m7"⟩]

/-- The system half of the 13-fragment drain example. -/
def exSys13 : List Entry :=
  [⟨8, "s1"⟩, ⟨9, "s2"⟩, ⟨10, "s3"⟩, ⟨11, "s4"⟩, ⟨12, "s5"⟩, ⟨13, "s6"⟩]

/-- The expected window for the 13-fragment example: the 10 most recent by
timestamp, ascending. -/
def exWindow13 : List Turn :=
  [⟨Speaker.agent, "m4", 4⟩, ⟨Speaker.agent, "m5", 5⟩, ⟨Speaker.agent, "m6", 6⟩,
   ⟨Speaker.agent, "m7", 7⟩, ⟨Speaker.customer, "s1", 8⟩, ⟨Speaker.customer, "s2", 9⟩,
   ⟨Speaker.customer, "s3", 10⟩, ⟨Speaker.customer, "s4", 11⟩,
   ⟨Speaker.customer, "s5", 12⟩, ⟨Speaker.customer, "s6", 13⟩]

/-- C2: on every dispatch tick the window is the merged, speaker-mapped,
timestamp-sorted list truncated to its last 10 entries: it equals the sorted
merge with the oldest `n - 10` entries dropped, it is ascending by
timestamp, its length is `min n 10`, and every dropped entry's timestamp is
at most every kept entry's timestamp (cross-channel recency, since the
truncation happens after the sort of the merged list).  In particular the
13-fragment example drain yields exactly the 10 most recent entries in
ascending order, and the spec's `[10,30,20]` / `[15,25]` merge example
sorts to `[10,15,20,25,30]`. -/
theorem C2_window_build (mic sys : List Entry) :
    recent_transcriptions mic sys
      = (sorted_transcriptions mic sys).drop ((all_transcriptions mic sys).length - 10)
    ∧ List.Sorted turnLE (recent_transcriptions mic sys)
    ∧ (recent_transcriptions mic sys).length = min (all_transcriptions mic sys).length 10
    ∧ (∀ x ∈ (sorted_transcriptions mic sys).take ((all_transcriptions mic sys).length - 10),
        ∀ y ∈ recent_transcriptions mic sys, x.timestamp ≤ y.timestamp)
    ∧ (recent_transcriptions exMic13 exSys13).length = 10
    ∧ recent_transcriptions exMic13 exSys13 = exWindow13
    ∧ (sorted_transcriptions [⟨10, "a1"⟩, ⟨30, "a2"⟩, ⟨20, "a3"⟩]
        [⟨15, "b1"⟩, ⟨25, "b2"⟩]).map Turn.timestamp = [10, 15, 20, 25, 30] := by
  have hlen := length_sorted_transcriptions mic sys
  have hdrop : recent_transcriptions mic sys
      = (sorted_transcriptions mic sys).drop ((all_transcriptions mic sys).length - 10) := by
    rw [recent_eq_drop, hlen]
  refine ⟨hdrop, ?_, ?_, ?_, by decide, by decide, by decide⟩
  · rw [hdrop]
    exact (sorted_transcriptions_sorted mic sys).sublist
      (List.drop_sublist _ (sorted_transcriptions mic sys))
  · rw [hdrop, List.length_drop, hlen]
    omega
  · intro x hx y hy
    rw [hdrop] at hy
    have h10 : (sorted_transcriptions mic sys).take ((all_transcriptions mic sys).length - 10)
        = (sorted_transcriptions mic sys).take ((sorted_transcriptions mic sys).length - 10) := by
      rw [hlen]
    rw [h10] at hx
    rw [← hlen] at hy
    exact (sorted_transcriptions_sorted mic sys).rel_of_mem_take_of_mem_drop hx hy

/-- Witness for C2: in the 13-fragment example, the dropped fragment at
timestamp 1 is no more recent than the kept fragment at timestamp 4. -/
theorem C2_window_build_witness :
    (⟨Speaker.agent, "m1", 1⟩ : Turn).timestamp ≤ (⟨Speaker.agent, "m4", 4⟩ : Turn).timestamp :=
  (C2_window_build exMic13 exSys13).2.2.2.1 ⟨Speaker.agent, "m1", 1⟩ (by decide)
    ⟨Speaker.agent, "m4", 4⟩ (by decide)

theorem filter_timestamp_sortTurns (l : List Turn) (t : Nat) :
    (sortTurns l).filter (fun x => x.timestamp == t)
      = l.filter (fun x => x.timestamp == t) := by
  have hsub : List.Sublist (l.filter (fun x => x.timestamp == t)) l := List.filter_sublist l
  have hpair : (l.filter (fun x => x.timestamp == t)).Pairwise turnLE := by
    apply List.pairwise_of_forall_mem_list
    intro a ha b hb
    have ha' : a.timestamp = t := by simpa using (List.mem_filter.mp ha).2
    have hb' : b.timestamp = t := by simpa using (List.mem_filter.mp hb).2
    show a.timestamp ≤ b.timestamp
    omega
  have h1 : List.Sublist (l.filter (fun x => x.timestamp == t))
      (List.insertionSort turnLE l) :=
    List.sublist_insertionSort hpair hsub
  have h2 : (l.filter (fun x => x.timestamp == t)).filter (fun x => x.timestamp == t)
      = l.filter (fun x => x.timestamp == t) := by
    apply List.filter_eq_self.mpr
    intro a ha
    exact (List.mem_filter.mp ha).2
  have h3 : List.Sublist (l.filter (fun x => x.timestamp == t))
      ((List.insertionSort turnLE l).filter (fun x => x.timestamp == t)) := by
    have h := h1.filter (fun x => x.timestamp == t)
    rwa [h2] at h
  have h4 : ((List.insertionSort turnLE l).filter (fun x => x.timestamp == t)).length
      = (l.filter (fun x => x.timestamp == t)).length :=
    ((List.perm_insertionSort turnLE l).filter (fun x => x.timestamp == t)).length_eq
  exact (h3.eq_of_length h4.symm).symm

/-- C9: the merged list is built with every mic (`agent`) entry before every
system (`customer`) entry, and the timestamp sort is stable, so the entries
of each equal-timestamp class appear in the sorted window in exactly their
pre-sort order: the mic entries of that timestamp in insertion order,
followed by the system entries of that timestamp in insertion order — in
particular an `agent` entry always precedes a `customer` entry of equal
timestamp, witnessed concretely by the one-each example. -/
theorem C9_equal_timestamp_tiebreak (mic sys : List Entry) (t : Nat) :
    (sorted_transcriptions mic sys).filter (fun x => x.timestamp == t)
      = (mic.map (toTurn Speaker.agent)).filter (fun x => x.timestamp == t)
        ++ (sys.map (toTurn Speaker.customer)).filter (fun x => x.timestamp == t)
    ∧ sorted_transcriptions [⟨5, "a"⟩] [⟨5, "b"⟩]
        = [⟨Speaker.agent, "a", 5⟩, ⟨Speaker.customer, "b", 5⟩] := by
  constructor
  · rw [sorted_transcriptions, filter_timestamp_sortTurns, all_transcriptions,
      List.filter_append]
  · decide

/-- The channel readiness state (lines 63-65): the two `streams_ready`
flags and the one-shot `recording_ready` event. -/
structure ReadyState where
  micReady : Bool
  sysReady : Bool
  gateSet : Bool
deriving DecidableEq, Repr

/-- The process-start readiness state: both flags false, gate un-fired. -/
def ReadyState.init : ReadyState := ⟨false, false, false⟩

/-- The reset performed by `recording_loop` at the start of every recording
session (lines 400-403): `recording_ready.clear()` and both
`streams_ready` flags set to `False`. -/
def sessionReset : ReadyState := ⟨false, false, false⟩

/-- The first-chunk handling in `write_chunks` (lines 234-246): mark this
channel's `streams_ready` flag, and if now `all(streams_ready.values())`
and `recording_ready` is not yet set, set it.  Returns the new state and
whether the gate fired on this chunk.  Both channel workers and the
session reset run on the one asyncio event-loop thread with no suspension
inside this block, so each step is atomic. -/
def firstChunkStep (st : ReadyState) (c : Channel) : ReadyState × Bool :=
  let st1 := match c with
    | Channel.mic => { st with micReady := true }
    | Channel.system => { st with sysReady := true }
  if st1.micReady && st1.sysReady && !st1.gateSet then
    ({ st1 with gateSet := true }, true)
  else
    (st1, false)

/-- Number of gate firings over a session's sequence of per-channel
first-chunk events. -/
def fireCount (st : ReadyState) : List Channel → Nat
  | [] => 0
  | c :: rest =>
    (if (firstChunkStep st c).2 then 1 else 0) + fireCount (firstChunkStep st c).1 rest

/-- Readiness state after a session's sequence of first-chunk events. -/
def runReady (st : ReadyState) : List Channel → ReadyState
  | [] => st
  | c :: rest => runReady (firstChunkStep st c).1 rest

/-- Whether the mic channel has observed its first chunk in the event
sequence. -/
def seenMic : List Channel → Bool
  | [] => false
  | Channel.mic :: _ => true
  | Channel.system :: rest => seenMic rest

/-- Whether the system channel has observed its first chunk in the event
sequence. -/
def seenSys : List Channel → Bool
  | [] => false
  | Channel.mic :: rest => seenSys rest
  | Channel.system :: _ => true

theorem firstChunkStep_mic_micReady (st : ReadyState) :
    (firstChunkStep st Channel.mic).1.micReady = true := by
  obtain ⟨m, s, g⟩ := st
  cases m <;> cases s <;> cases g <;> rfl

theorem firstChunkStep_sys_micReady (st : ReadyState) :
    (firstChunkStep st Channel.system).1.micReady = st.micReady := by
  obtain ⟨m, s, g⟩ := st
  cases m <;> cases s <;> cases g <;> rfl

theorem firstChunkStep_mic_sysReady (st : ReadyState) :
    (firstChunkStep st Channel.mic).1.sysReady = st.sysReady := by
  obtain ⟨m, s, g⟩ := st
  cases m <;> cases s <;> cases g <;> rfl

theorem firstChunkStep_sys_sysReady (st : ReadyState) :
    (firstChunkStep st Channel.system).1.sysReady = true := by
  obtain ⟨m, s, g⟩ := st
  cases m <;> cases s <;> cases g <;> rfl

theorem firstChunkStep_gateSet (st : ReadyState) (c : Channel) :
    (firstChunkStep st c).1.gateSet
      = (st.gateSet
          || ((firstChunkStep st c).1.micReady && (firstChunkStep st c).1.sysReady)) := by
  obtain ⟨m, s, g⟩ := st
  cases c <;> cases m <;> cases s <;> cases g <;> rfl

theorem firstChunkStep_snd (st : ReadyState) (c : Channel) :
    (firstChunkStep st c).2
      = ((firstChunkStep st c).1.micReady && (firstChunkStep st c).1.sysReady
          && !st.gateSet) := by
  obtain ⟨m, s, g⟩ := st
  cases c <;> cases m <;> cases s <;> cases g <;> rfl

theorem firstChunkStep_inv (st : ReadyState) (c : Channel)
    (h : ((firstChunkStep st c).1.micReady && (firstChunkStep st c).1.sysReady) = true) :
    (firstChunkStep st c).1.gateSet = true := by
  rw [firstChunkStep_gateSet, h, Bool.or_true]

theorem runReady_micReady (tr : List Channel) :
    ∀ st : ReadyState, (runReady st tr).micReady = (st.micReady || seenMic tr) := by
  induction tr with
  | nil => intro st; simp [runReady, seenMic]
  | cons c rest ih =>
    intro st
    cases c with
    | mic =>
      simp only [runReady, ih, firstChunkStep_mic_micReady, seenMic]
      simp
    | system =>
      simp only [runReady, ih, firstChunkStep_sys_micReady, seenMic]

theorem runReady_sysReady (tr : List Channel) :
    ∀ st : ReadyState, (runReady st tr).sysReady = (st.sysReady || seenSys tr) := by
  induction tr with
  | nil => intro st; simp [runReady, seenSys]
  | cons c rest ih =>
    intro st
    cases c with
    | mic =>
      simp only [runReady, ih, firstChunkStep_mic_sysReady, seenSys]
    | system =>
      simp only [runReady, ih, firstChunkStep_sys_sysReady, seenSys]
      simp

theorem runReady_gateSet (tr : List Channel) :
    ∀ st : ReadyState, ((st.micReady && st.sysReady) = true → st.gateSet = true) →
      (runReady st tr).gateSet
        = (st.gateSet || ((st.micReady || seenMic tr) && (st.sysReady || seenSys tr))) := by
  induction tr with
  | nil =>
    intro st h
    obtain ⟨m, s, g⟩ := st
    cases m <;> cases s <;> cases g <;> simp_all [runReady, seenMic, seenSys]
  | cons c rest ih =>
    intro st h
    cases c with
    | mic =>
      simp only [runReady, seenMic, seenSys]
      rw [ih _ (firstChunkStep_inv st Channel.mic), firstChunkStep_gateSet,
        firstChunkStep_mic_micReady, firstChunkStep_mic_sysReady]
      cases st.gateSet <;> cases st.sysReady <;> cases seenSys rest <;> simp
    | system =>
      simp only [runReady, seenMic, seenSys]
      rw [ih _ (firstChunkStep_inv st Channel.system), firstChunkStep_gateSet,
        firstChunkStep_sys_micReady, firstChunkStep_sys_sysReady]
      cases st.gateSet <;> cases st.micReady <;> cases seenMic rest <;> simp

theorem fireCount_eq (tr : List Channel) :
    ∀ st : ReadyState, ((st.micReady && st.sysReady) = true → st.gateSet = true) →
      fireCount st tr
        = (if st.gateSet then 0
            else if (st.micReady || seenMic tr) && (st.sysReady || seenSys tr) then 1
            else 0) := by
  induction tr with
  | nil =>
    intro st h
    obtain ⟨m, s, g⟩ := st
    cases m <;> cases s <;> cases g <;> simp_all [fireCount, seenMic, seenSys]
  | cons c rest ih =>
    intro st h
    cases c with
    | mic =>
      simp only [fireCount, seenMic, seenSys]
      rw [ih _ (firstChunkStep_inv st Channel.mic), firstChunkStep_snd,
        firstChunkStep_gateSet, firstChunkStep_mic_micReady, firstChunkStep_mic_sysReady]
      cases hg : st.gateSet with
      | true => simp [h, hg]
      | false =>
        cases st.sysReady <;> simp
    | system =>
      simp only [fireCount, seenMic, seenSys]
      rw [ih _ (firstChunkStep_inv st Channel.system), firstChunkStep_snd,
        firstChunkStep_gateSet, firstChunkStep_sys_micReady, firstChunkStep_sys_sysReady]
      cases hg : st.gateSet with
      | true => simp [hg]
      | false =>
        cases st.micReady <;> simp

/-- C3: over any per-session sequence of first-chunk events, the gate fires
exactly once if both channels observe a first chunk and never otherwise; the
gate is set afterwards exactly when both channels have reported; the
readiness flags track exactly which channels have reported; a step fires
precisely when it is the transition making both flags true with the gate
not yet fired; and the start-of-session reset restores the initial
`{false, false}` state with an un-fired gate. -/
theorem C3_gate_fires_once (tr : List Channel) :
    fireCount ReadyState.init tr = (if seenMic tr && seenSys tr then 1 else 0)
    ∧ (runReady ReadyState.init tr).gateSet = (seenMic tr && seenSys tr)
    ∧ (runReady ReadyState.init tr).micReady = seenMic tr
    ∧ (runReady ReadyState.init tr).sysReady = seenSys tr
    ∧ (∀ st : ReadyState, ∀ c : Channel,
        (firstChunkStep st c).2
          = ((firstChunkStep st c).1.micReady && (firstChunkStep st c).1.sysReady
              && !st.gateSet))
    ∧ sessionReset = ReadyState.init := by
  refine ⟨?_, ?_, ?_, ?_, firstChunkStep_snd, rfl⟩
  · rw [fireCount_eq tr ReadyState.init (by simp [ReadyState.init])]
    simp [ReadyState.init]
  · rw [runReady_gateSet tr ReadyState.init (by simp [ReadyState.init])]
    simp [ReadyState.init]
  · rw [runReady_micReady tr ReadyState.init]
    simp [ReadyState.init]
  · rw [runReady_sysReady tr ReadyState.init]
    simp [ReadyState.init]

/-- A JSON value of the API payload (lines 356-361). -/
inductive JValue where
  | str : String → JValue
  | num : Nat → JValue
  | turnsArr : List Turn → JValue
deriving DecidableEq, Repr

/-- The payload built for a non-empty window (lines 356-361). -/
structure Payload where
  call_id : String
  window_num : Nat
  client_email : String
  turns : List Turn
deriving DecidableEq, Repr

/-- The payload as the JSON object of lines 356-361, key by key in source
order. -/
def Payload.toDict (p : Payload) : List (String × JValue) :=
  [("call_id", JValue.str p.call_id), ("window_num", JValue.num p.window_num),
   ("client_email", JValue.str p.client_email), ("turns", JValue.turnsArr p.turns)]

/-- The outcome of the `requests.post` call (line 365): a response with a
status code, or a raised transport error. -/
inductive Outcome where
  | ok : Nat → Outcome
  | transportError : String → Outcome
deriving DecidableEq, Repr

/-- A delivery failure in the sense of the spec: a non-2xx status or a
transport error. -/
def Outcome.isFailure : Outcome → Bool
  | Outcome.ok s => decide (s < 200) || decide (300 ≤ s)
  | Outcome.transportError _ => true

/-- Whether the tick logs a delivery failure: `status_code != 200` logs
`API Error` (lines 386-387) and a raised exception logs
`API Request failed` (lines 388-389). -/
def logsFailure : Outcome → Bool
  | Outcome.ok s => decide (s ≠ 200)
  | Outcome.transportError _ => true

/-- The dispatcher-visible mutable state: the shared buffer and the global
`window_counter` (line 51, starting at 0). -/
structure TickState where
  buffer : TranscriptionBuffer
  window_counter : Nat
deriving DecidableEq, Repr

/-- What one tick produced: the state it leaves behind, the list of POST
requests it issued (in order), and whether it logged a delivery failure. -/
structure TickOutput where
  state : TickState
  sent : List Payload
  failureLogged : Bool
deriving DecidableEq, Repr

/-- One iteration of the `while True` loop of
`send_api_requests_periodically` (lines 301-391): under
`transcription_lock`, read both channel lists, merge, sort and truncate
them to `recent_transcriptions`, and clear both lists; then, only if
`recent_transcriptions` is non-empty, increment `window_counter` and POST
the payload exactly once, logging a failure on a non-200 status or a
raised transport error.  The drain happens unconditionally; an empty
result sends nothing and leaves the counter unchanged. -/
def apiTick (callId email : String) (st : TickState) (outcome : Outcome) : TickOutput :=
  let drained := drain_all st.buffer
  let recent := recent_transcriptions drained.1.1 drained.1.2
  if recent.isEmpty then
    ⟨⟨drained.2, st.window_counter⟩, [], false⟩
  else
    ⟨⟨drained.2, st.window_counter + 1⟩,
     [⟨callId, st.window_counter + 1, email, recent⟩],
     logsFailure outcome⟩

/-- One dispatch interval from the dispatcher's point of view: the appends
that landed in the buffer during the interval, and the delivery outcome the
sink would return for this tick's POST (ignored if nothing is sent). -/
structure TickInput where
  arrivals : List (Channel × Entry)
  outcome : Outcome
deriving DecidableEq, Repr

/-- Run the dispatcher loop over a sequence of intervals, collecting every
POSTed payload in order. -/
def runTicks (callId email : String) : TickState → List TickInput → TickState × List Payload
  | st, [] => (st, [])
  | st, t :: rest =>
    let out := apiTick callId email ⟨appendMany st.buffer t.arrivals, st.window_counter⟩
      t.outcome
    let next := runTicks callId email out.state rest
    (next.1, out.sent ++ next.2)

theorem apiTick_eq_empty (callId email : String) (st : TickState) (outc : Outcome)
    (h : (recent_transcriptions st.buffer.mic st.buffer.system).isEmpty = true) :
    apiTick callId email st outc
      = ⟨⟨TranscriptionBuffer.empty, st.window_counter⟩, [], false⟩ := by
  simp [apiTick, drain_all, h]

theorem apiTick_eq_nonempty (callId email : String) (st : TickState) (outc : Outcome)
    (h : (recent_transcriptions st.buffer.mic st.buffer.system).isEmpty = false) :
    apiTick callId email st outc
      = ⟨⟨TranscriptionBuffer.empty, st.window_counter + 1⟩,
         [⟨callId, st.window_counter + 1, email,
           recent_transcriptions st.buffer.mic st.buffer.system⟩],
         logsFailure outc⟩ := by
  simp [apiTick, drain_all, h]

theorem runTicks_spec (callId email : String) (ticks : List TickInput) :
    ∀ st : TickState,
      ((runTicks callId email st ticks).2).map Payload.window_num
          = List.range' (st.window_counter + 1) ((runTicks callId email st ticks).2).length
      ∧ (runTicks callId email st ticks).1.window_counter
          = st.window_counter + ((runTicks callId email st ticks).2).length := by
  induction ticks with
  | nil => intro st; simp [runTicks]
  | cons t rest ih =>
    intro st
    cases hre : (recent_transcriptions (appendMany st.buffer t.arrivals).mic
        (appendMany st.buffer t.arrivals).system).isEmpty with
    | true =>
      have hstep : apiTick callId email ⟨appendMany st.buffer t.arrivals, st.window_counter⟩
          t.outcome = ⟨⟨TranscriptionBuffer.empty, st.window_counter⟩, [], false⟩ :=
        apiTick_eq_empty callId email ⟨appendMany st.buffer t.arrivals, st.window_counter⟩
          t.outcome hre
      simp only [runTicks, hstep]
      simpa using ih ⟨TranscriptionBuffer.empty, st.window_counter⟩
    | false =>
      have hstep : apiTick callId email ⟨appendMany st.buffer t.arrivals, st.window_counter⟩
          t.outcome
          = ⟨⟨TranscriptionBuffer.empty, st.window_counter + 1⟩,
             [⟨callId, st.window_counter + 1, email,
               recent_transcriptions (appendMany st.buffer t.arrivals).mic
                 (appendMany st.buffer t.arrivals).system⟩],
             logsFailure t.outcome⟩ :=
        apiTick_eq_nonempty callId email ⟨appendMany st.buffer t.arrivals, st.window_counter⟩
          t.outcome hre
      simp only [runTicks, hstep]
      have h := ih ⟨TranscriptionBuffer.empty, st.window_counter + 1⟩
      constructor
      · simp only [List.singleton_append, List.map_cons, List.length_cons]
        rw [h.1]
        rfl
      · simp only [List.singleton_append, List.length_cons]
        have h2 := h.2
        simp at h2
        omega

/-- C4: starting from `window_counter = 0` (line 51), the sequence of
window numbers carried by the dispatched payloads over any run is exactly
`1, 2, 3, …` — the first non-empty window carries 1, the counter is
monotonically non-decreasing over the process lifetime (it equals the
number of non-empty windows dispatched so far), and a tick whose drained
window is empty sends nothing and leaves the counter unchanged. -/
theorem C4_window_counter (callId email : String) (ticks : List TickInput) :
    ((runTicks callId email ⟨TranscriptionBuffer.empty, 0⟩ ticks).2).map Payload.window_num
        = List.range' 1 ((runTicks callId email ⟨TranscriptionBuffer.empty, 0⟩ ticks).2).length
    ∧ (runTicks callId email ⟨TranscriptionBuffer.empty, 0⟩ ticks).1.window_counter
        = ((runTicks callId email ⟨TranscriptionBuffer.empty, 0⟩ ticks).2).length
    ∧ (∀ st : TickState, ∀ outc : Outcome,
        (recent_transcriptions st.buffer.mic st.buffer.system).isEmpty = true →
          apiTick callId email st outc
            = ⟨⟨TranscriptionBuffer.empty, st.window_counter⟩, [], false⟩)
    ∧ (∀ st : TickState, ∀ ts : List TickInput,
        st.window_counter ≤ (runTicks callId email st ts).1.window_counter) := by
  refine ⟨(runTicks_spec callId email ticks ⟨TranscriptionBuffer.empty, 0⟩).1,
    by simpa using (runTicks_spec callId email ticks ⟨TranscriptionBuffer.empty, 0⟩).2, ?_, ?_⟩
  · intro st outc h
    exact apiTick_eq_empty callId email st outc h
  · intro st ts
    have h := (runTicks_spec callId email ts st).2
    omega

/-- Witness for C4: a concrete two-tick run — one fragment in the first
tick, nothing in the second — dispatches exactly one window, numbered 1,
and an empty-buffer tick is a no-op for the counter. -/
theorem C4_window_counter_witness :
    ((runTicks "cid" "em" ⟨TranscriptionBuffer.empty, 0⟩
        [⟨[(Channel.mic, ⟨3, "hello"⟩)], Outcome.ok 200⟩, ⟨[], Outcome.ok 200⟩]).2).map
          Payload.window_num
      = List.range' 1 ((runTicks "cid" "em" ⟨TranscriptionBuffer.empty, 0⟩
          [⟨[(Channel.mic, ⟨3, "hello"⟩)], Outcome.ok 200⟩, ⟨[], Outcome.ok 200⟩]).2).length
    ∧ apiTick "cid" "em" ⟨TranscriptionBuffer.empty, 7⟩ (Outcome.ok 200)
        = ⟨⟨TranscriptionBuffer.empty, 7⟩, [], false⟩ :=
  ⟨(C4_window_counter "cid" "em"
      [⟨[(Channel.mic, ⟨3, "hello"⟩)], Outcome.ok 200⟩, ⟨[], Outcome.ok 200⟩]).1,
   (C4_window_counter "cid" "em" []).2.2.1 ⟨TranscriptionBuffer.empty, 7⟩ (Outcome.ok 200)
     (by decide)⟩

theorem logsFailure_of_isFailure (outc : Outcome) (h : outc.isFailure = true) :
    logsFailure outc = true := by
  cases outc with
  | ok s =>
    simp only [Outcome.isFailure, Bool.or_eq_true, decide_eq_true_eq] at h
    simp only [logsFailure, decide_eq_true_eq]
    omega
  | transportError m => rfl

/-- C6: when the drained window is non-empty and the delivery outcome is a
non-2xx status or a transport error, the tick logs the failure, issues
exactly one POST (no retry), advances `window_counter` to exactly its
successor (never decreased or reused), leaves the buffer empty (the failed
payload is not re-buffered), and the state and dispatch stream seen by all
subsequent ticks are identical to what a successful delivery would have
produced — the loop continues unaffected. -/
theorem C6_delivery_failure (callId email : String) (st : TickState) (outc : Outcome)
    (hne : (recent_transcriptions st.buffer.mic st.buffer.system).isEmpty = false)
    (hfail : outc.isFailure = true) :
    (apiTick callId email st outc).failureLogged = true
    ∧ ((apiTick callId email st outc).sent).length = 1
    ∧ (apiTick callId email st outc).state.window_counter = st.window_counter + 1
    ∧ (apiTick callId email st outc).state.buffer = TranscriptionBuffer.empty
    ∧ (∀ outc2 : Outcome,
        (apiTick callId email st outc).state = (apiTick callId email st outc2).state
        ∧ (apiTick callId email st outc).sent = (apiTick callId email st outc2).sent)
    ∧ (∀ rest : List TickInput,
        runTicks callId email (apiTick callId email st outc).state rest
          = runTicks callId email (apiTick callId email st (Outcome.ok 200)).state rest) := by
  have hstep := apiTick_eq_nonempty callId email st outc hne
  refine ⟨?_, ?_, ?_, ?_, ?_, ?_⟩
  · rw [hstep]
    exact logsFailure_of_isFailure outc hfail
  · rw [hstep]
    rfl
  · rw [hstep]
  · rw [hstep]
  · intro outc2
    rw [hstep, apiTick_eq_nonempty callId email st outc2 hne]
    exact ⟨rfl, rfl⟩
  · intro rest
    rw [hstep, apiTick_eq_nonempty callId email st (Outcome.ok 200) hne]

/-- Witness for C6: a concrete tick holding one fragment whose delivery
returns status 500 logs the failure, sends exactly once, advances the
counter from 0 to 1, and clears the buffer. -/
theorem C6_delivery_failure_witness :
    (apiTick "cid" "em" ⟨⟨[⟨1, "hi"⟩], []⟩, 0⟩ (Outcome.ok 500)).failureLogged = true
    ∧ ((apiTick "cid" "em" ⟨⟨[⟨1, "hi"⟩], []⟩, 0⟩ (Outcome.ok 500)).sent).length = 1
    ∧ (apiTick "cid" "em" ⟨⟨[⟨1, "hi"⟩], []⟩, 0⟩ (Outcome.ok 500)).state.window_counter = 1
    ∧ (apiTick "cid" "em" ⟨⟨[⟨1, "hi"⟩], []⟩, 0⟩
        (Outcome.ok 500)).state.buffer = TranscriptionBuffer.empty :=
  ⟨(C6_delivery_failure "cid" "em" ⟨⟨[⟨1, "hi"⟩], []⟩, 0⟩ (Outcome.ok 500)
      (by decide) (by decide)).1,
   (C6_delivery_failure "cid" "em" ⟨⟨[⟨1, "hi"⟩], []⟩, 0⟩ (Outcome.ok 500)
      (by decide) (by decide)).2.1,
   (C6_delivery_failure "cid" "em" ⟨⟨[⟨1, "hi"⟩], []⟩, 0⟩ (Outcome.ok 500)
      (by decide) (by decide)).2.2.1,
   (C6_delivery_failure "cid" "em" ⟨⟨[⟨1, "hi"⟩], []⟩, 0⟩ (Outcome.ok 500)
      (by decide) (by decide)).2.2.2.1⟩

/-- C8 counterexample: a concrete non-empty tick POSTs a payload whose JSON
object has the keys `call_id`, `window_num`, `client_email`, `turns` — the
`client_email` field (line 359) is not among the three fields
`{call_id, window_sequence, turns}` the claim allows, so the payload does
not consist of those fields alone. -/
theorem C8_counterexample :
    ((apiTick "cid" "em" ⟨⟨[⟨1, "hi"⟩], []⟩, 0⟩ (Outcome.ok 200)).sent).map
        (fun p => (Payload.toDict p).map Prod.fst)
      = [["call_id", "window_num", "client_email", "turns"]]
    ∧ "client_email" ∉ (["call_id", "window_num", "turns"] : List String) := by
  refine ⟨by decide, by decide⟩

/-- C8 as amended: every payload handed to the Delivery Sink for a
non-empty window consists of exactly the four fields `call_id`,
`window_num` (the incremented window sequence), `client_email`, and
`turns`, where `turns` is the truncated, time-sorted sequence of that
tick's drain. -/
theorem C8_payload_fields (callId email : String) (st : TickState) (outc : Outcome)
    (hne : (recent_transcriptions st.buffer.mic st.buffer.system).isEmpty = false) :
    (apiTick callId email st outc).sent
      = [⟨callId, st.window_counter + 1, email,
          recent_transcriptions st.buffer.mic st.buffer.system⟩]
    ∧ ((apiTick callId email st outc).sent).map (fun p => (Payload.toDict p).map Prod.fst)
      = [["call_id", "window_num", "client_email", "turns"]] := by
  rw [apiTick_eq_nonempty callId email st outc hne]
  exact ⟨rfl, rfl⟩

/-- Witness for C8 (amended): the concrete one-fragment tick's payload has
exactly the four source fields with the drained window as `turns`. -/
theorem C8_payload_fields_witness :
    ((apiTick "cid" "em" ⟨⟨[⟨1, "hi"⟩], []⟩, 0⟩ (Outcome.ok 200)).sent).map
        (fun p => (Payload.toDict p).map Prod.fst)
      = [["call_id", "window_num", "client_email", "turns"]] :=
  (C8_payload_fields "cid" "em" ⟨⟨[⟨1, "hi"⟩], []⟩, 0⟩ (Outcome.ok 200) (by decide)).2

/-- One alternative of a recognition result (`result.alternatives[j]`,
lines 86-87): its transcript text. -/
structure ResultAlternative where
  transcript : String
deriving DecidableEq, Repr

/-- One recognition result of a transcript event (lines 85-90): the
`is_partial` flag and the list of alternatives. -/
structure RecResult where
  isPartial : Bool
  alternatives : List ResultAlternative
deriving DecidableEq, Repr

/-- Python's `transcript.strip()` truthiness test at line 90: the stripped
string is non-empty exactly when some character is not whitespace. -/
def hasContent (s : String) : Bool :=
  !(s.data.all (fun c => c.isWhitespace))

/-- The buffer entries appended for one result by the loop at lines 85-99:
for each alternative, if the result is final (`not result.is_partial`) and
the transcript is not blank (`transcript.strip()` truthy), one entry with
the receipt-time timestamp and the transcript text is appended; partial
results and blank alternatives append nothing. -/
def fragmentsOfResult (now : Nat) (r : RecResult) : List Entry :=
  r.alternatives.filterMap (fun alt =>
    if !r.isPartial && hasContent alt.transcript then
      some (⟨now, alt.transcript⟩ : Entry)
    else none)

/-- `handle_transcript_event` (lines 75-105) restricted to its effect on
the shared buffer: an event with no results returns early (lines 79-83)
and appends nothing; otherwise the appends of each result are made in
order. -/
def handle_transcript_event (now : Nat) (results : List RecResult) : List Entry :=
  if results.length = 0 then []
  else (results.map (fragmentsOfResult now)).flatten

theorem filterMap_content (now : Nat) (l : List ResultAlternative) :
    (l.filterMap (fun alt =>
        if hasContent alt.transcript then some (⟨now, alt.transcript⟩ : Entry) else none))
      = (l.filter (fun a => hasContent a.transcript)).map
          (fun a => (⟨now, a.transcript⟩ : Entry)) := by
  induction l with
  | nil => rfl
  | cons a rest ih =>
    cases hA : hasContent a.transcript
    · simp [List.filterMap_cons, List.filter_cons, hA, ih]
    · simp [List.filterMap_cons, List.filter_cons, hA, ih]

theorem fragmentsOfResult_eq (now : Nat) (r : RecResult) :
    fragmentsOfResult now r
      = if r.isPartial then []
        else (r.alternatives.filter (fun a => hasContent a.transcript)).map
          (fun a => (⟨now, a.transcript⟩ : Entry)) := by
  cases hp : r.isPartial with
  | true =>
    simp only [fragmentsOfResult, hp, if_true]
    simp
  | false =>
    simp only [fragmentsOfResult, hp, Bool.false_eq_true, if_false]
    rw [← filterMap_content now r.alternatives]
    apply List.filterMap_congr
    intro a ha
    simp

/-- C5 counterexample: the handler loops over every alternative of a final
result and appends once per non-blank alternative, so a single final
result carrying the two non-blank alternatives `hello` and `world`
produces two buffer appends, not exactly one. -/
theorem C5_counterexample :
    (handle_transcript_event 5 [⟨false, [⟨"hello"⟩, ⟨"world"⟩]⟩]).length = 2
    ∧ (handle_transcript_event 5 [⟨false, [⟨"hello"⟩, ⟨"world"⟩]⟩]).length ≠ 1
    ∧ handle_transcript_event 5 [⟨false, [⟨"hello"⟩, ⟨"world"⟩]⟩]
        = [⟨5, "hello"⟩, ⟨5, "world"⟩] := by
  refine ⟨by decide, by decide, by decide⟩

theorem micOf_map_mic (es : List Entry) :
    micOf (es.map (fun e => (Channel.mic, e))) = es := by
  induction es with
  | nil => rfl
  | cons e rest ih => simp [micOf, ih]

theorem sysOf_map_mic (es : List Entry) :
    sysOf (es.map (fun e => (Channel.mic, e))) = [] := by
  induction es with
  | nil => rfl
  | cons e rest ih => simp [sysOf, ih]

/-- C5 as amended: a partial result appends nothing; a final result
appends exactly one fragment per non-blank alternative (so exactly one for
the usual single-alternative final result), each carrying the receipt-time
timestamp; blank or whitespace-only alternatives are discarded; an
event's appends are exactly the concatenation of its results' appends,
with an empty event appending nothing; and the appends land in the owning
channel's list of the shared buffer, leaving the other channel's list
untouched. -/
theorem C5_final_results_buffered (now : Nat) (r : RecResult)
    (results : List RecResult) (t : String) (ht : hasContent t = true) :
    (r.isPartial = true → fragmentsOfResult now r = [])
    ∧ fragmentsOfResult now r
        = (if r.isPartial then []
           else (r.alternatives.filter (fun a => hasContent a.transcript)).map
             (fun a => (⟨now, a.transcript⟩ : Entry)))
    ∧ (∀ e ∈ fragmentsOfResult now r, e.timestamp = now)
    ∧ handle_transcript_event now results = (results.map (fragmentsOfResult now)).flatten
    ∧ handle_transcript_event now [⟨false, [⟨t⟩]⟩] = [⟨now, t⟩]
    ∧ (∀ b : TranscriptionBuffer,
        (appendMany b ((handle_transcript_event now results).map
            (fun e => (Channel.mic, e)))).mic
          = b.mic ++ handle_transcript_event now results
        ∧ (appendMany b ((handle_transcript_event now results).map
            (fun e => (Channel.mic, e)))).system = b.system) := by
  refine ⟨?_, fragmentsOfResult_eq now r, ?_, ?_, ?_, ?_⟩
  · intro hp
    rw [fragmentsOfResult_eq now r, hp]
    rfl
  · intro e he
    rw [fragmentsOfResult_eq now r] at he
    cases hp : r.isPartial with
    | true => rw [hp] at he; simp at he
    | false =>
      rw [hp] at he
      simp only [Bool.false_eq_true, if_false, List.mem_map] at he
      obtain ⟨a, _, rfl⟩ := he
      rfl
  · unfold handle_transcript_event
    by_cases h0 : results.length = 0
    · rw [if_pos h0]
      rw [List.length_eq_zero] at h0
      rw [h0]
      rfl
    · rw [if_neg h0]
  · unfold handle_transcript_event
    simp only [List.length_cons, List.length_nil]
    rw [if_neg (by omega)]
    simp [fragmentsOfResult_eq, List.filter_cons, ht]
  · intro b
    constructor
    · rw [appendMany_mic, micOf_map_mic]
    · rw [appendMany_system, sysOf_map_mic, List.append_nil]

/-- Witness for C5 (amended): a concrete final single-alternative result
with non-blank text appends exactly one fragment with the receipt
timestamp. -/
theorem C5_final_results_buffered_witness :
    handle_transcript_event 7 [⟨false, [⟨"ok"⟩]⟩] = [⟨7, "ok"⟩] :=
  (C5_final_results_buffered 7 ⟨false, [⟨"ok"⟩]⟩ [] "ok" (by decide)).2.2.2.2.1

/-- The two shared resources named by the spec: the shared transcript
buffer and the channel readiness state. -/
inductive SharedResource where
  | transcriptBuffer : SharedResource
  | readinessState : SharedResource
deriving DecidableEq, Repr

/-- The mutual-exclusion domain an operation runs under:
`transcription_lock`; the single asyncio event-loop thread created in
`run_async_loop` (lines 431-437), which hosts both channel workers and
`recording_loop`, so their steps between suspension points never
interleave; or the internal condition lock of the `threading.Event`
`recording_ready`, which `is_set`/`set`/`clear`/`wait` take internally. -/
inductive ExclusionDomain where
  | transcriptionLock : ExclusionDomain
  | eventLoopThread : ExclusionDomain
  | eventInternalLock : ExclusionDomain
deriving DecidableEq, Repr

/-- One primitive operation of the source, in program order, annotated with
the shared resource it touches (if any), the mutual-exclusion domain it
runs under (if any), whether `transcription_lock` is held while it runs
(i.e. whether the line sits inside a `with transcription_lock:` block),
and whether it is a suspension point (an `await`, a blocking sleep or
wait, or blocking network/file I/O). -/
structure ProgOp where
  descr : String
  touches : Option SharedResource
  domain : Option ExclusionDomain
  holdsTranscriptionLock : Bool
  suspends : Bool
deriving DecidableEq, Repr

/-- The operations of `handle_transcript_event` (lines 75-105) for one
final fragment; the `with transcription_lock:` block spans lines 94-99
and contains no `await`. -/
def handler_ops : List ProgOp :=
  [⟨"read transcript_event.results, local data (line 78)", none, none, false, false⟩,
   ⟨"append entry to transcription_buffer[channel_name] (lines 94-98)",
     some SharedResource.transcriptBuffer, some ExclusionDomain.transcriptionLock,
     true, false⟩,
   ⟨"read len(transcription_buffer[channel_name]) (line 99)",
     some SharedResource.transcriptBuffer, some ExclusionDomain.transcriptionLock,
     true, false⟩,
   ⟨"log FINAL transcript after the lock is released (lines 101-103)",
     none, none, false, false⟩]

/-- The first-chunk operations of `write_chunks` (lines 234-249): the
readiness flags are touched only on the event-loop thread with no `await`
between lines 240 and 244, and the `Event` calls take its internal lock. -/
def write_chunks_ops : List ProgOp :=
  [⟨"async for chunk in stream_gen, awaits the next chunk (line 235)",
     none, none, false, true⟩,
   ⟨"streams_ready[channel_name] = True (line 240)",
     some SharedResource.readinessState, some ExclusionDomain.eventLoopThread,
     false, false⟩,
   ⟨"all(streams_ready.values()) (line 242)",
     some SharedResource.readinessState, some ExclusionDomain.eventLoopThread,
     false, false⟩,
   ⟨"recording_ready.is_set() (line 243)",
     some SharedResource.readinessState, some ExclusionDomain.eventInternalLock,
     false, false⟩,
   ⟨"recording_ready.set() (line 244)",
     some SharedResource.readinessState, some ExclusionDomain.eventInternalLock,
     false, false⟩,
   ⟨"await stream.input_stream.send_audio_event (line 249)",
     none, none, false, true⟩]

/-- The per-session reset operations of `recording_loop` (lines 400-403 and
the idle poll at line 419), all on the event-loop thread. -/
def recording_loop_ops : List ProgOp :=
  [⟨"recording_ready.clear() (line 401)",
     some SharedResource.readinessState, some ExclusionDomain.eventInternalLock,
     false, false⟩,
   ⟨"streams_ready[mic] = False (line 402)",
     some SharedResource.readinessState, some ExclusionDomain.eventLoopThread,
     false, false⟩,
   ⟨"streams_ready[system] = False (line 403)",
     some SharedResource.readinessState, some ExclusionDomain.eventLoopThread,
     false, false⟩,
   ⟨"await asyncio.sleep(0.5) (line 419)", none, none, false, true⟩]

/-- The delivery request of the dispatcher (line 365): network I/O,
performed after the `with transcription_lock:` block (lines 308-351) has
ended. -/
def delivery_op : ProgOp :=
  ⟨"requests.post(API_ENDPOINT, json=payload, timeout=30) (line 365)",
   none, none, false, true⟩

/-- The operations of `send_api_requests_periodically` (lines 292-391):
the gate wait before the loop, the per-tick sleep, the drain under the
lock (lines 308-351), and the post-lock delivery and archival. -/
def dispatcher_ops : List ProgOp :=
  [⟨"recording_ready.wait(), flag check under the Event condition lock (line 298)",
     some SharedResource.readinessState, some ExclusionDomain.eventInternalLock,
     false, false⟩,
   ⟨"recording_ready.wait(), blocked with the condition lock released (line 298)",
     none, none, false, true⟩,
   ⟨"time.sleep(REC_SECONDS) (line 302)", none, none, false, true⟩,
   ⟨"read len of both channel lists (lines 310-312)",
     some SharedResource.transcriptBuffer, some ExclusionDomain.transcriptionLock,
     true, false⟩,
   ⟨"read both channel lists into all_transcriptions (lines 315-331)",
     some SharedResource.transcriptBuffer, some ExclusionDomain.transcriptionLock,
     true, false⟩,
   ⟨"sort and truncate all_transcriptions, local data (lines 334-337)",
     none, some ExclusionDomain.transcriptionLock, true, false⟩,
   ⟨"set both channel lists to [] (lines 340-343)",
     some SharedResource.transcriptBuffer, some ExclusionDomain.transcriptionLock,
     true, false⟩,
   ⟨"log the captured window, local data (lines 345-351)",
     none, some ExclusionDomain.transcriptionLock, true, false⟩,
   ⟨"window_counter += 1, dispatcher thread only (line 354)",
     none, none, false, false⟩,
   delivery_op,
   ⟨"write api_response json file (lines 378-381)", none, none, false, true⟩]

/-- All annotated operations that touch shared state or suspend. -/
def all_ops : List ProgOp :=
  handler_ops ++ write_chunks_ops ++ recording_loop_ops ++ dispatcher_ops

/-- C7: in the transliterated operation traces of the handler, the channel
workers, the session reset, and the dispatcher: every access to the shared
transcript buffer runs inside the `with transcription_lock:` block; every
access to either shared resource runs under some mutual-exclusion domain;
no operation holding `transcription_lock` — indeed no operation inside any
exclusion domain — is a suspension point; and the delivery request in
particular suspends on network I/O with no lock held. -/
theorem C7_lock_discipline :
    all_ops.all (fun op => decide (op.touches = some SharedResource.transcriptBuffer →
        op.holdsTranscriptionLock = true
        ∧ op.domain = some ExclusionDomain.transcriptionLock)) = true
    ∧ all_ops.all (fun op => decide (op.touches.isSome = true → op.domain.isSome = true)) = true
    ∧ all_ops.all (fun op => decide (op.holdsTranscriptionLock = true →
        op.suspends = false)) = true
    ∧ all_ops.all (fun op => decide (op.domain.isSome = true → op.suspends = false)) = true
    ∧ delivery_op ∈ dispatcher_ops
    ∧ delivery_op.suspends = true
    ∧ delivery_op.holdsTranscriptionLock = false
    ∧ delivery_op.domain = none := by
  refine ⟨by decide, by decide, by decide, by decide, ?_, rfl, rfl, rfl⟩
  simp [dispatcher_ops]

/-- The joint state of the readiness gate and the dispatcher thread's
program counter: whether `recording_ready` is currently set, and whether
the dispatcher has returned from its single `recording_ready.wait()` call
at line 298 and entered the `while True` loop at line 301. -/
structure DispatcherState where
  gateSet : Bool
  passedGate : Bool
deriving DecidableEq, Repr

/-- The events the dispatcher's progress depends on: the gate firing
(line 244), the supervisor's per-session gate reset (line 401), and the
dispatcher thread being scheduled (returning from `wait()` or running one
tick of the loop). -/
inductive DispatcherEvent where
  | gateFire : DispatcherEvent
  | gateReset : DispatcherEvent
  | schedule : DispatcherEvent
deriving DecidableEq, Repr

/-- One step of the combined system; the returned flag records whether the
dispatcher performed a tick (rather than remaining blocked in `wait()`).
The `wait()` sits before the `while True` loop, so once past it the
dispatcher never consults the gate again. -/
def dispatchStep (s : DispatcherState) : DispatcherEvent → DispatcherState × Bool
  | DispatcherEvent.gateFire => ({ s with gateSet := true }, false)
  | DispatcherEvent.gateReset => ({ s with gateSet := false }, false)
  | DispatcherEvent.schedule =>
    if s.passedGate then (s, true)
    else if s.gateSet then ({ s with passedGate := true }, true)
    else (s, false)

/-- The dispatcher-relevant state after a sequence of events. -/
def runDispatcher (s : DispatcherState) : List DispatcherEvent → DispatcherState
  | [] => s
  | e :: rest => runDispatcher (dispatchStep s e).1 rest

theorem dispatchStep_passedGate_mono (s : DispatcherState) (e : DispatcherEvent)
    (h : s.passedGate = true) : (dispatchStep s e).1.passedGate = true := by
  obtain ⟨g, p⟩ := s
  cases e <;> cases g <;> simp_all [dispatchStep]

theorem runDispatcher_passedGate_mono (evs : List DispatcherEvent) :
    ∀ s : DispatcherState, s.passedGate = true →
      (runDispatcher s evs).passedGate = true := by
  induction evs with
  | nil => intro s h; simpa [runDispatcher] using h
  | cons e rest ih =>
    intro s h
    exact ih (dispatchStep s e).1 (dispatchStep_passedGate_mono s e h)

/-- C10: the dispatcher blocks on the readiness gate only before its very
first tick — while the gate is unfired and un-passed, a scheduled step does
not tick; any step that does tick leaves the wait passed; once past the
wait, every scheduled step ticks immediately with no state change,
regardless of the gate, and remains past it under every later event; and
the supervisor's per-session gate reset never un-passes the dispatcher, so
after a reset a scheduled step still ticks without blocking. -/
theorem C10_wait_only_once (s : DispatcherState) (e : DispatcherEvent) :
    dispatchStep ⟨false, false⟩ DispatcherEvent.schedule = (⟨false, false⟩, false)
    ∧ ((dispatchStep s DispatcherEvent.schedule).2 = true
        → (dispatchStep s DispatcherEvent.schedule).1.passedGate = true)
    ∧ (s.passedGate = true → dispatchStep s DispatcherEvent.schedule = (s, true))
    ∧ (s.passedGate = true → (dispatchStep s e).1.passedGate = true)
    ∧ (∀ evs : List DispatcherEvent, s.passedGate = true →
        (runDispatcher s evs).passedGate = true)
    ∧ (dispatchStep s DispatcherEvent.gateReset).1.passedGate = s.passedGate
    ∧ dispatchStep ⟨false, true⟩ DispatcherEvent.schedule = (⟨false, true⟩, true) := by
  refine ⟨by decide, ?_, ?_, dispatchStep_passedGate_mono s e,
    fun evs => runDispatcher_passedGate_mono evs s, ?_, by decide⟩
  · intro h
    obtain ⟨g, p⟩ := s
    cases g <;> cases p <;> simp_all [dispatchStep]
  · intro h
    obtain ⟨g, p⟩ := s
    cases g <;> simp_all [dispatchStep]
  · obtain ⟨g, p⟩ := s
    simp [dispatchStep]

/-- Witness for C10: with the gate freshly reset but the wait already
passed, a scheduled dispatcher step still ticks, and the reset preserves
the passed wait. -/
theorem C10_wait_only_once_witness :
    dispatchStep ⟨false, true⟩ DispatcherEvent.schedule = (⟨false, true⟩, true)
    ∧ (runDispatcher ⟨false, true⟩ [DispatcherEvent.gateReset,
        DispatcherEvent.schedule]).passedGate = true :=
  ⟨(C10_wait_only_once ⟨false, true⟩ DispatcherEvent.schedule).2.2.1 rfl,
   (C10_wait_only_once ⟨false, true⟩ DispatcherEvent.gateReset).2.2.2.2.1
     [DispatcherEvent.gateReset, DispatcherEvent.schedule] rfl⟩

end Recorder
